import Mathlib

/-!
Verification development for the Mantine `Accordion` component
(`src/mantine-core/src/components/Accordion/Accordion.tsx`).

The component composes two pieces of logic:
* a state engine (`useAccordionState`, imported from
  `./use-accordion-state/use-accordion-state`, whose implementation is not
  part of the source tree here and is therefore modelled from the spec), and
* a focus navigator plus composition layer implemented directly inside
  `Accordion.tsx` (`handleItemKeydown`, the `controlsRefs` array, the
  `items` filtering and the `controls` render map), which are embedded
  from the source below.
-/

set_option autoImplicit false

namespace Accordion

/-! ### State engine (`use-accordion-state`)

Modelled from the spec: the implementation file
`use-accordion-state/use-accordion-state.ts` is not present in the source
tree (only its import and call site in `Accordion.tsx` are), so the
definitions in this section follow the spec's description of the state
engine: §3 DATA MODEL (OpenSet, AccordionState) and §4.1 State Engine
(construction inputs, operating modes, toggle rule, edge cases). -/

/-- Modelled from the spec: the externally observable accordion state.
In single mode it holds at most one open index or the sentinel `-1`
(represented as any negative value meaning "none"); in multiple mode it
holds an order-irrelevant set of open indices. The shape is fixed by
`multiple` at construction. -/
inductive AccordionState where
  | single (openIndex : Int)
  | multi (openSet : Finset Nat)
  deriving DecidableEq

/-- Modelled from the spec: the toggle rule for single mode. Given the
current open index (`-1` meaning none) and a target index `i`: an index
outside `[0, itemsCount)` is a no-op; toggling the currently open index
yields `-1`; toggling any other index yields exactly that index. -/
def toggleSingle (itemsCount : Nat) (cur : Int) (i : Int) : Int :=
  if 0 ≤ i ∧ i < (itemsCount : Int) then
    if cur = i then -1 else i
  else cur

/-- Modelled from the spec: the toggle rule for multiple mode. An index
outside `[0, itemsCount)` is a no-op; otherwise if `i` is in the open set
it is removed, else it is inserted. -/
def toggleMulti (itemsCount : Nat) (cur : Finset Nat) (i : Int) : Finset Nat :=
  if 0 ≤ i ∧ i < (itemsCount : Int) then
    if i.toNat ∈ cur then cur.erase i.toNat else insert i.toNat cur
  else cur

/-- Modelled from the spec: the toggle rule applied to an
`AccordionState`, dispatching on the mode fixed by the state's shape. -/
def AccordionState.toggle (itemsCount : Nat) (s : AccordionState) (i : Int) :
    AccordionState :=
  match s with
  | .single cur => .single (toggleSingle itemsCount cur i)
  | .multi cur => .multi (toggleMulti itemsCount cur i)

/-- The set of open item indices held in an `AccordionState`: in single
mode the singleton of the open index (empty when the sentinel is
negative), in multiple mode the open set itself. -/
def AccordionState.openIndices : AccordionState → Finset Nat
  | .single cur => if 0 ≤ cur then {cur.toNat} else ∅
  | .multi cur => cur

/-- Modelled from the spec: the per-index open flag read from an
`AccordionState` (`value[index]` in `Accordion.tsx`): an equality test
against the single open index in single mode, a membership test in
multiple mode. -/
def AccordionState.lookup (s : AccordionState) (index : Nat) : Bool :=
  match s with
  | .single cur => cur = (index : Int)
  | .multi cur => index ∈ cur

/-- Modelled from the spec: construction inputs of the state engine.
`controlledState = some s` makes the instance controlled. -/
structure EngineConfig where
  multiple : Bool
  itemsCount : Nat
  initialItem : Int := -1
  initialState : Option AccordionState := none
  controlledState : Option AccordionState := none
  deriving DecidableEq

/-- Modelled from the spec: the initial `AccordionState`. `initialState`
wins when provided; otherwise multiple mode starts empty and single mode
starts at `initialItem` when it lies in `[0, itemsCount)`, else at `-1`. -/
def getInitialState (cfg : EngineConfig) : AccordionState :=
  match cfg.initialState with
  | some s => s
  | none =>
    if cfg.multiple then .multi ∅
    else .single
      (if 0 ≤ cfg.initialItem ∧ cfg.initialItem < (cfg.itemsCount : Int) then
        cfg.initialItem
      else -1)

/-- Modelled from the spec: a state-engine instance: its configuration and
its internal storage (used only in uncontrolled mode). -/
structure Engine where
  cfg : EngineConfig
  internal : AccordionState
  deriving DecidableEq

/-- Modelled from the spec: a fresh engine built from its configuration. -/
def Engine.create (cfg : EngineConfig) : Engine :=
  { cfg := cfg, internal := getInitialState cfg }

/-- Modelled from the spec: what a read of the state returns. Controlled
mode always echoes the externally supplied state; uncontrolled mode
returns the internal storage. -/
def Engine.read (e : Engine) : AccordionState :=
  match e.cfg.controlledState with
  | some s => s
  | none => e.internal

/-- Modelled from the spec: `toggle(i)`. The next state is computed from
the current read per the toggle rule. In uncontrolled mode it is stored;
in controlled mode internal storage is never mutated. The second
component is the value passed to `onChange` (the notification), which is
always the computed next state. -/
def Engine.toggle (e : Engine) (i : Int) : Engine × AccordionState :=
  let next := (e.read).toggle e.cfg.itemsCount i
  match e.cfg.controlledState with
  | some _ => (e, next)
  | none => ({ e with internal := next }, next)

/-- Folding a whole sequence of toggles through the engine, discarding the
notifications. -/
def Engine.runToggles (e : Engine) (ops : List Int) : Engine :=
  ops.foldl (fun acc i => (acc.toggle i).1) e

/-! ### Focus navigator and composition (`Accordion.tsx`)

These definitions are embedded from the source. `controlsRefs.current` is
a JavaScript array of button elements indexed by item position; an unset
slot (hole, out-of-range read, or a `null` written by a ref callback on
unmount) reads as `undefined`, which is falsy. We model the array as a
`List (Option Handle)` with `Handle := Nat` an opaque element identity,
and a lookup that returns `none` for a negative index, an index past the
end, or an empty slot. -/

/-- An opaque identity for a focusable control element. -/
abbrev Handle := Nat

/-- Reading `controlsRefs.current[i]`: `none` (JS `undefined`/`null`,
falsy) for a negative index, an index beyond the array length, or an
empty slot. -/
def refLookup (refs : List (Option Handle)) (i : Int) : Option Handle :=
  if 0 ≤ i then refs.getD i.toNat none else none

/-- `handleItemKeydown`, `ArrowDown` branch: focus the element recorded at
`index + 1` if there is one, otherwise `controlsRefs.current[0]?.focus()`.
The result is the handle that receives focus, `none` when nothing does. -/
def moveNext (refs : List (Option Handle)) (index : Int) : Option Handle :=
  match refLookup refs (index + 1) with
  | some h => some h
  | none => refLookup refs 0

/-- `handleItemKeydown`, `ArrowUp` branch: focus the element recorded at
`index - 1` if there is one, otherwise
`controlsRefs.current[controlsRefs.current.length - 1]?.focus()`. -/
def movePrev (refs : List (Option Handle)) (index : Int) : Option Handle :=
  match refLookup refs (index - 1) with
  | some h => some h
  | none => refLookup refs ((refs.length : Int) - 1)

/-- The truncation in `useDidUpdate`:
`controlsRefs.current = controlsRefs.current.slice(0, items.length)`. -/
def truncateRefs (refs : List (Option Handle)) (n : Nat) : List (Option Handle) :=
  refs.take n

/-- A React child element passed to the `Accordion`: either an
`AccordionItem` element or an element of any other type (modelled with an
opaque payload distinguishing individual elements). -/
inductive ReactChild where
  | accordionItem (payload : Nat)
  | other (payload : Nat)
  deriving DecidableEq

/-- The runtime type test `item.type === AccordionItem` used by the
`items` filter. -/
def ReactChild.isAccordionItem : ReactChild → Bool
  | .accordionItem _ => true
  | .other _ => false

/-- The `items` list:
`React.Children.toArray(children).filter((item) => item.type === AccordionItem)`. -/
def itemsOf (children : List ReactChild) : List ReactChild :=
  children.filter ReactChild.isAccordionItem

/-- The per-item render instruction produced by the `controls` map in
`Accordion.tsx`: the opened flag, the index captured by the toggle
callback, the keydown handler and the handle-registration callback, the
derived element id, and the child element it was built from. -/
structure RenderedControl where
  opened : Bool
  toggleIndex : Nat
  keydownIndex : Nat
  registerIndex : Nat
  itemId : String
  source : ReactChild
  deriving DecidableEq

/-- A default `RenderedControl`, used as the fallback of total lookups in
theorem statements. -/
def defaultControl : RenderedControl :=
  { opened := false, toggleIndex := 0, keydownIndex := 0, registerIndex := 0,
    itemId := "", source := .other 0 }

/-- The `controls` map: `items.map((item, index) => <AccordionItem ...`.
Every per-item value is derived from the item's position `index` in the
filtered `items` list: `opened={value[index]}`,
`onToggle={() => handlers.toggle(index)}`, `id={uuid-index}`,
`onKeyDown={(event) => handleItemKeydown(event, index)}`, and the
`controlRef` callback writing `controlsRefs.current[index]`. -/
def renderControls (uuid : String) (value : AccordionState)
    (children : List ReactChild) : List RenderedControl :=
  (itemsOf children).enum.map fun p =>
    { opened := value.lookup p.1
      toggleIndex := p.1
      keydownIndex := p.1
      registerIndex := p.1
      itemId := uuid ++ "-" ++ toString p.1
      source := p.2 }

end Accordion

namespace Accordion

/-! ### Helper lemmas -/

/-- Folding single-mode toggles never leaves the single-mode shape. -/
theorem foldl_toggle_single (itemsCount : Nat) (ops : List Int) (c : Int) :
    ops.foldl (fun s i => AccordionState.toggle itemsCount s i)
        (AccordionState.single c)
      = AccordionState.single (ops.foldl (toggleSingle itemsCount) c) := by
  induction ops generalizing c with
  | nil => rfl
  | cons a t ih => simpa [AccordionState.toggle] using ih (toggleSingle itemsCount c a)

/-- A single-mode state holds at most one open index. -/
theorem openIndices_single_card_le (c : Int) :
    (AccordionState.single c).openIndices.card ≤ 1 := by
  simp only [AccordionState.openIndices]
  split <;> simp

/-- A toggle at an index outside `[0, itemsCount)` leaves any state
unchanged. -/
theorem toggle_out_of_range (itemsCount : Nat) (s : AccordionState) (i : Int)
    (h : ¬(0 ≤ i ∧ i < (itemsCount : Int))) :
    s.toggle itemsCount i = s := by
  cases s <;> simp [AccordionState.toggle, toggleSingle, toggleMulti, h]

/-! ### C1 -/

/-- C1: in single mode (`multiple = false`), for every sequence of toggle
operations starting from any single-mode initial state, the set of open
item indices held in the `AccordionState` contains at most one index —
in particular at every observed point, since the statement is quantified
over all toggle sequences and hence over every prefix of a run. -/
theorem single_mode_at_most_one_open (itemsCount : Nat) (c : Int)
    (ops : List Int) :
    ((ops.foldl (fun s i => AccordionState.toggle itemsCount s i)
        (AccordionState.single c)).openIndices).card ≤ 1 := by
  rw [foldl_toggle_single]
  exact openIndices_single_card_le _

/-! ### C2 -/

/-- C2: in single mode, for every current state and in-range index `i`,
`toggle(i)` yields the sentinel `-1` ("none") when `i` is currently open,
and yields exactly `i` otherwise — with whatever was previously open now
closed: the open set of the result is exactly `{i}`. -/
theorem single_toggle_rule (itemsCount : Nat) (cur i : Int)
    (h0 : 0 ≤ i) (h1 : i < (itemsCount : Int)) :
    (cur = i → toggleSingle itemsCount cur i = -1) ∧
    (cur ≠ i → toggleSingle itemsCount cur i = i) ∧
    (cur ≠ i →
      (AccordionState.single (toggleSingle itemsCount cur i)).openIndices
        = {i.toNat}) := by
  refine ⟨fun hc => ?_, fun hc => ?_, fun hc => ?_⟩ <;>
    simp [toggleSingle, AccordionState.openIndices, h0, h1, hc]

/-- Witness for C2, realising the spec scenario (3 items, single mode,
item 1 open): toggling the open item 1 yields none, toggling the closed
item 2 yields 2. -/
theorem single_toggle_rule_witness :
    toggleSingle 3 1 1 = -1 ∧ toggleSingle 3 1 2 = 2 :=
  ⟨(single_toggle_rule 3 1 1 (by decide) (by decide)).1 rfl,
   (single_toggle_rule 3 1 2 (by decide) (by decide)).2.1 (by decide)⟩

/-! ### C4 -/

/-- C4: in multiple mode, for every open set and every in-range index
`i`, toggling `i` twice in a row returns the state to its value before
the first of the two toggles. -/
theorem multi_toggle_involution (itemsCount : Nat) (s : Finset Nat) (i : Int)
    (h0 : 0 ≤ i) (h1 : i < (itemsCount : Int)) :
    AccordionState.toggle itemsCount
        (AccordionState.toggle itemsCount (AccordionState.multi s) i) i
      = AccordionState.multi s := by
  simp only [AccordionState.toggle, toggleMulti, if_pos (And.intro h0 h1)]
  by_cases hm : i.toNat ∈ s
  · simp [hm, Finset.insert_erase hm]
  · simp [hm, Finset.erase_insert hm]

/-- Witness for C4: with 3 items and open set `{0, 2}` (the spec
scenario state after toggling 0 then 2), toggling 0 twice restores
`{0, 2}`. -/
theorem multi_toggle_involution_witness :
    AccordionState.toggle 3
        (AccordionState.toggle 3 (AccordionState.multi {0, 2}) 0) 0
      = AccordionState.multi {0, 2} :=
  multi_toggle_involution 3 {0, 2} 0 (by decide) (by decide)

/-! ### C3 -/

/-- C3: in controlled mode the engine's internal storage is never mutated
by `toggle`: the engine after a toggle — indeed after any whole sequence
of toggles — is unchanged, every read keeps returning exactly the
externally supplied state, and the only effect of a toggle is the
`onChange` notification, computed from the current external state. -/
theorem controlled_toggle_frame (e : Engine) (s : AccordionState) (i : Int)
    (ops : List Int) (h : e.cfg.controlledState = some s) :
    (e.toggle i).1 = e ∧
    (e.toggle i).2 = s.toggle e.cfg.itemsCount i ∧
    e.runToggles ops = e ∧
    (e.runToggles ops).read = s := by
  have hr : e.read = s := by simp [Engine.read, h]
  have ht1 : ∀ j : Int, (e.toggle j).1 = e := by
    intro j
    simp [Engine.toggle, h]
  have hrun : e.runToggles ops = e := by
    unfold Engine.runToggles
    induction ops with
    | nil => rfl
    | cons a t ih => rw [List.foldl_cons, ht1 a, ih]
  refine ⟨ht1 i, ?_, hrun, by rw [hrun, hr]⟩
  simp [Engine.toggle, h, hr]

/-- A concrete controlled engine: 3 items, single mode, external state
holding index 0 open. -/
def controlledEngine : Engine :=
  Engine.create
    { multiple := false, itemsCount := 3,
      controlledState := some (AccordionState.single 0) }

/-- Witness for C3: toggling the controlled engine (once, and through a
whole sequence) leaves it unchanged, reads keep echoing the external
state, and the notification is computed from the external state. -/
theorem controlled_toggle_frame_witness :
    (controlledEngine.toggle 1).1 = controlledEngine ∧
    (controlledEngine.toggle 1).2
      = AccordionState.toggle 3 (AccordionState.single 0) 1 ∧
    controlledEngine.runToggles [1, 2, 0] = controlledEngine ∧
    (controlledEngine.runToggles [1, 2, 0]).read = AccordionState.single 0 :=
  controlled_toggle_frame controlledEngine (AccordionState.single 0) 1
    [1, 2, 0] rfl

/-! ### C8 -/

/-- C8: for every current state and every index outside
`[0, itemsCount)`, `toggle(i)` leaves the state unchanged: the computed
next state equals the current read, the `onChange` notification carries
that unchanged state, and every subsequent read still returns it. -/
theorem out_of_range_toggle_noop (e : Engine) (i : Int)
    (h : i < 0 ∨ (e.cfg.itemsCount : Int) ≤ i) :
    (e.read).toggle e.cfg.itemsCount i = e.read ∧
    (e.toggle i).2 = e.read ∧
    (e.toggle i).1.read = e.read := by
  have hn : ¬(0 ≤ i ∧ i < (e.cfg.itemsCount : Int)) := by
    intro hc
    rcases h with h | h <;> omega
  have hfix := toggle_out_of_range e.cfg.itemsCount e.read i hn
  refine ⟨hfix, ?_, ?_⟩ <;>
    cases hcs : e.cfg.controlledState <;>
      simp [Engine.toggle, Engine.read, hcs, hfix] <;>
      simpa [Engine.read, hcs] using hfix

/-- A concrete uncontrolled engine: 3 items, single mode, item 1 open
initially. -/
def uncontrolledEngine : Engine :=
  Engine.create { multiple := false, itemsCount := 3, initialItem := 1 }

/-- Witness for C8: toggling the out-of-range index 5 on a 3-item engine
is a no-op whose notification carries the unchanged state. -/
theorem out_of_range_toggle_noop_witness :
    (uncontrolledEngine.read).toggle 3 5 = uncontrolledEngine.read ∧
    (uncontrolledEngine.toggle 5).2 = uncontrolledEngine.read ∧
    (uncontrolledEngine.toggle 5).1.read = uncontrolledEngine.read :=
  out_of_range_toggle_noop uncontrolledEngine 5 (Or.inr (by decide))

/-! ### Focus-navigator helper lemmas -/

/-- `List.getD` over a list of empty slots returns the default. -/
theorem getD_none_of_all_none (refs : List (Option Handle))
    (h : ∀ r ∈ refs, r = none) (n : Nat) :
    refs.getD n none = none := by
  induction refs generalizing n with
  | nil => simp
  | cons a t ih =>
    cases n with
    | zero => simpa using h a (by simp)
    | succ m =>
      rw [List.getD_cons_succ]
      exact ih (fun r hr => h r (by simp [hr])) m

/-- A lookup in a handle list with no recorded handles returns nothing. -/
theorem refLookup_all_none (refs : List (Option Handle))
    (h : ∀ r ∈ refs, r = none) (i : Int) :
    refLookup refs i = none := by
  unfold refLookup
  split
  · exact getD_none_of_all_none refs h _
  · rfl

/-- A lookup past the end of the handle list returns nothing. -/
theorem refLookup_out_of_range (refs : List (Option Handle)) (i : Int)
    (h : (refs.length : Int) ≤ i) :
    refLookup refs i = none := by
  unfold refLookup
  split
  · apply List.getD_eq_default
    omega
  · rfl

/-- A lookup at a negative index returns nothing. -/
theorem refLookup_neg (refs : List (Option Handle)) (i : Int) (h : i < 0) :
    refLookup refs i = none := by
  unfold refLookup
  rw [if_neg (by omega)]

/-- In a handle list with no empty slots, every in-range lookup finds a
handle. -/
theorem refLookup_isSome_of_dense (refs : List (Option Handle))
    (hdense : ∀ r ∈ refs, r.isSome) (n : Nat) (hn : n < refs.length) :
    (refLookup refs (n : Int)).isSome = true := by
  unfold refLookup
  rw [if_pos (Int.natCast_nonneg n), Int.toNat_natCast,
    List.getD_eq_getElem _ _ hn]
  exact hdense _ (List.getElem_mem hn)

/-! ### C9 -/

/-- C9: after the handle list is truncated to `n` entries, no lookup at
any index `≥ n` returns a handle. -/
theorem truncate_no_stale_handles (refs : List (Option Handle)) (n j : Nat)
    (h : n ≤ j) :
    refLookup (truncateRefs refs n) (j : Int) = none := by
  unfold truncateRefs
  apply refLookup_out_of_range
  simp [List.length_take]
  omega

/-- Witness for C9: truncating a 3-handle list to 1 entry makes the
lookup at index 2 empty. -/
theorem truncate_no_stale_handles_witness :
    refLookup (truncateRefs [some 1, some 2, some 3] 1) ((2 : Nat) : Int)
      = none :=
  truncate_no_stale_handles [some 1, some 2, some 3] 1 2 (by decide)

/-! ### C6 -/

/-- Counterexample to C6 as stated: in the handle list `[some 7, none]`
the last (and only) registered handle is `7`, recorded at index 0, yet
`movePrevious(0)` transfers focus to nothing: its wraparound consults the
final slot (index `length - 1 = 1`), which is empty, so the optional
chaining makes it a no-op instead of focusing the last registered
handle. -/
theorem focus_wraparound_counterexample :
    (refLookup [some 7, none] 0 = some 7 ∧
     refLookup [some 7, none] 1 = none) ∧
    movePrev [some 7, none] 0 = none ∧
    movePrev [some 7, none] 0 ≠ some 7 := by decide

/-- C6 (amended): for every handle list with no empty slots (every slot
filled, length `k + 1`, so the last registered index is `k`): `moveNext`
from `k` transfers focus to the handle at index 0 (which exists), and
`movePrevious` from 0 transfers focus to the handle at the final slot
`k` — the last registered handle — which exists; and when zero handles
are recorded, both operations focus nothing. -/
theorem focus_wraparound (refs : List (Option Handle)) (k : Nat)
    (hk : refs.length = k + 1) (hdense : ∀ r ∈ refs, r.isSome) :
    (moveNext refs (k : Int) = refLookup refs 0 ∧
     (refLookup refs 0).isSome = true ∧
     movePrev refs 0 = refLookup refs (k : Int) ∧
     (refLookup refs (k : Int)).isSome = true) ∧
    (∀ refs2 : List (Option Handle), (∀ r ∈ refs2, r = none) →
      ∀ j : Int, moveNext refs2 j = none ∧ movePrev refs2 j = none) := by
  have hlast : ((refs.length : Int) - 1) = (k : Int) := by
    rw [hk]
    push_cast
    ring
  constructor
  · refine ⟨?_, ?_, ?_, ?_⟩
    · unfold moveNext
      rw [refLookup_out_of_range refs ((k : Int) + 1) (by omega)]
    · exact refLookup_isSome_of_dense refs hdense 0 (by omega)
    · unfold movePrev
      rw [refLookup_neg refs (0 - 1) (by omega), hlast]
    · exact refLookup_isSome_of_dense refs hdense k (by omega)
  · intro refs2 h2 j
    constructor
    · unfold moveNext
      rw [refLookup_all_none refs2 h2 (j + 1), refLookup_all_none refs2 h2 0]
    · unfold movePrev
      rw [refLookup_all_none refs2 h2 (j - 1),
        refLookup_all_none refs2 h2 ((refs2.length : Int) - 1)]

/-- Witness for C6 (amended), realising the spec scenario of two handles
registered at 0 and 1: `moveNext(1)` focuses handle 0 and
`movePrevious(0)` focuses handle 1. -/
theorem focus_wraparound_witness :
    moveNext [some 0, some 1] 1 = some 0 ∧
    movePrev [some 0, some 1] 0 = some 1 := by
  have h := (focus_wraparound [some 0, some 1] 1 (by decide) (by decide)).1
  exact ⟨h.1.trans (by decide), h.2.2.1.trans (by decide)⟩

/-! ### C7 -/

/-- Counterexample to C7 as stated: in the sparse handle list
`[some 5, none, none]`, `movePrevious(0)` has no handle at the immediate
neighbor `-1`; the claim says it then falls through to "the last recorded
handle", which is `5` (indices 1 and 2 are empty, so index 0 holds the
last recorded handle) — but the code consults the final slot
(index `length - 1 = 2`), which is empty, and focuses nothing. -/
theorem sparse_neighbor_wraparound_counterexample :
    refLookup [some 5, none, none] (0 - 1) = none ∧
    refLookup [some 5, none, none] 0 = some 5 ∧
    refLookup [some 5, none, none] 1 = none ∧
    refLookup [some 5, none, none] 2 = none ∧
    movePrev [some 5, none, none] 0 = none ∧
    movePrev [some 5, none, none] 0 ≠ some 5 := by decide

/-- C7 (amended): for every possibly sparse handle list and every
`fromIndex`, when no handle is recorded at the immediate neighbor
position, the movement falls through directly to the wraparound slot —
index 0 for `moveNext`, the final slot `length - 1` for `movePrevious`
(focused only if a handle is recorded there) — never skipping further
ahead to the next recorded handle. -/
theorem sparse_neighbor_wraparound (refs : List (Option Handle)) (i : Int) :
    (refLookup refs (i + 1) = none → moveNext refs i = refLookup refs 0) ∧
    (refLookup refs (i - 1) = none →
      movePrev refs i = refLookup refs ((refs.length : Int) - 1)) := by
  constructor
  · intro h
    unfold moveNext
    rw [h]
  · intro h
    unfold movePrev
    rw [h]

/-- Witness for C7 (amended): in the sparse list `[some 1, none, some 3]`
with the slot after 0 empty, `moveNext(0)` wraps to the handle at index 0
(it does not skip ahead to the handle at index 2), and `movePrevious(0)`
wraps to the final slot's handle. -/
theorem sparse_neighbor_wraparound_witness :
    moveNext [some 1, none, some 3] 0 = some 1 ∧
    movePrev [some 1, none, some 3] 0 = some 3 := by
  have h := sparse_neighbor_wraparound [some 1, none, some 3] 0
  exact ⟨(h.1 (by decide)).trans (by decide),
    (h.2 (by decide)).trans (by decide)⟩

/-! ### Composition helper lemmas -/

/-- The `controls` list has one entry per filtered item. -/
theorem renderControls_length (uuid : String) (value : AccordionState)
    (children : List ReactChild) :
    (renderControls uuid value children).length = (itemsOf children).length := by
  simp [renderControls]

/-- The control rendered at position `i` spelled out componentwise. -/
theorem renderControls_getD (uuid : String) (value : AccordionState)
    (children : List ReactChild) (i : Nat)
    (h : i < (itemsOf children).length) :
    (renderControls uuid value children).getD i defaultControl =
      { opened := value.lookup i
        toggleIndex := i
        keydownIndex := i
        registerIndex := i
        itemId := uuid ++ "-" ++ toString i
        source := (itemsOf children).getD i (ReactChild.other 0) } := by
  have hlen : i < (renderControls uuid value children).length := by
    rw [renderControls_length]
    exact h
  rw [List.getD_eq_getElem _ _ hlen, List.getD_eq_getElem _ _ h]
  simp [renderControls]

/-! ### C5 -/

/-- C5: the opened flag passed to the renderer for the item at position
`i` equals the test of `i` against the current state: a membership test
of `i` in the open set in multiple mode, an equality test against the
single open index in single mode. -/
theorem rendered_opened_flag (uuid : String) (children : List ReactChild)
    (st : Finset Nat) (c : Int) (i : Nat)
    (h : i < (itemsOf children).length) :
    ((renderControls uuid (.multi st) children).getD i defaultControl).opened
      = decide (i ∈ st) ∧
    ((renderControls uuid (.single c) children).getD i defaultControl).opened
      = decide (c = (i : Int)) := by
  rw [renderControls_getD uuid (.multi st) children i h,
    renderControls_getD uuid (.single c) children i h]
  exact ⟨rfl, rfl⟩

/-- Witness for C5: with items at filtered positions 0 and 1, open set
`{1}` marks item 1 opened, while single state `0` marks item 1 closed. -/
theorem rendered_opened_flag_witness :
    ((renderControls "a" (.multi {1})
        [ReactChild.accordionItem 0, ReactChild.other 5,
          ReactChild.accordionItem 1]).getD 1 defaultControl).opened
      = true ∧
    ((renderControls "a" (.single 0)
        [ReactChild.accordionItem 0, ReactChild.other 5,
          ReactChild.accordionItem 1]).getD 1 defaultControl).opened
      = false := by
  have h := rendered_opened_flag "a"
    [ReactChild.accordionItem 0, ReactChild.other 5,
      ReactChild.accordionItem 1] {1} 0 1 (by decide)
  exact ⟨h.1.trans (by decide), h.2.trans (by decide)⟩

/-! ### C10 -/

/-- C10: only children whose runtime type is `AccordionItem` become
items: every filtered item is an `AccordionItem`, the item count equals
the number of `AccordionItem` children only (matched by the rendered
control count), and every per-item value — opened flag, toggle callback
index, derived id, keydown handler index, handle-registration index —
refers to the item's position `i` in the filtered ordered list. -/
theorem items_filtering (uuid : String) (value : AccordionState)
    (children : List ReactChild) (i : Nat)
    (h : i < (itemsOf children).length) :
    (itemsOf children).length = children.countP ReactChild.isAccordionItem ∧
    (∀ c ∈ itemsOf children, c.isAccordionItem = true) ∧
    (renderControls uuid value children).length = (itemsOf children).length ∧
    ((renderControls uuid value children).getD i defaultControl).toggleIndex
      = i ∧
    ((renderControls uuid value children).getD i defaultControl).keydownIndex
      = i ∧
    ((renderControls uuid value children).getD i defaultControl).registerIndex
      = i ∧
    ((renderControls uuid value children).getD i defaultControl).itemId
      = uuid ++ "-" ++ toString i ∧
    ((renderControls uuid value children).getD i defaultControl).opened
      = value.lookup i ∧
    ((renderControls uuid value children).getD i defaultControl).source
      = (itemsOf children).getD i (ReactChild.other 0) ∧
    (((renderControls uuid value children).getD i
        defaultControl).source).isAccordionItem = true := by
  rw [renderControls_getD uuid value children i h]
  refine ⟨(List.countP_eq_length_filter _ _).symm, ?_,
    renderControls_length uuid value children, rfl, rfl, rfl, rfl, rfl, rfl, ?_⟩
  · intro c hc
    exact (List.mem_filter.mp hc).2
  · rw [List.getD_eq_getElem _ _ h]
    exact (List.mem_filter.mp (List.getElem_mem h)).2

/-- Witness for C10: of three children only the two `AccordionItem`s
become items; the control at filtered position 1 carries index 1
throughout and derives id `a-1`, and its source is the second
`AccordionItem` (the `other` child was dropped). -/
theorem items_filtering_witness :
    (itemsOf [ReactChild.accordionItem 0, ReactChild.other 5,
        ReactChild.accordionItem 1]).length = 2 ∧
    ((renderControls "a" (.single 0)
        [ReactChild.accordionItem 0, ReactChild.other 5,
          ReactChild.accordionItem 1]).getD 1 defaultControl).toggleIndex
      = 1 ∧
    ((renderControls "a" (.single 0)
        [ReactChild.accordionItem 0, ReactChild.other 5,
          ReactChild.accordionItem 1]).getD 1 defaultControl).itemId
      = "a-1" ∧
    ((renderControls "a" (.single 0)
        [ReactChild.accordionItem 0, ReactChild.other 5,
          ReactChild.accordionItem 1]).getD 1 defaultControl).source
      = ReactChild.accordionItem 1 := by
  have h := items_filtering "a" (.single 0)
    [ReactChild.accordionItem 0, ReactChild.other 5,
      ReactChild.accordionItem 1] 1 (by decide)
  refine ⟨by decide, h.2.2.2.1, h.2.2.2.2.2.2.1.trans (by decide),
    h.2.2.2.2.2.2.2.2.1.trans (by decide)⟩

end Accordion
